import Mathlib

/-
Shallow embedding of `src/lib/detect.ts` (client-metadata detection for an
analytics pipeline): IP extraction from proxy headers, device classification,
geolocation (edge-header fast path plus database fallback), and the
CIDR-aware IP blocklist.  External collaborators (the maxmind reader, the
locality classifier) are passed in as explicit function arguments; the
process environment is passed as explicit `Option String` arguments; the
`Headers` object is modelled as an association list with case-insensitive,
first-match lookup.  JavaScript `null`/`undefined` string results are
modelled by `Option String`, and JS string truthiness by `jsTruthyS`.
All string operations are defined by structural recursion on character
lists so that every definition is kernel-computable.
-/

deriving instance DecidableEq for Except

namespace UmamiDetect

/-! ### JavaScript string primitives, modelled on character lists -/

/-- JS truthiness of a `string | null | undefined` value: truthy iff present
and non-empty. -/
def jsTruthyS (s : Option String) : Bool :=
  match s with
  | some v => v ≠ ""
  | none => false

/-- `str.split(sep)` for a one-character separator: like JS, the result is
never empty and keeps empty pieces (so `",x".split(",") = ["", "x"]` and
`"".split(",") = [""]`). -/
def splitChar (sep : Char) : List Char → List (List Char)
  | [] => [[]]
  | c :: rest =>
    match splitChar sep rest with
    | [] => [[]]
    | h :: t => if c = sep then [] :: h :: t else (c :: h) :: t

/-- JS whitespace for `trim` (the ASCII part, which is all the header values
in play contain). -/
def jsWsChar (c : Char) : Bool :=
  c = ' ' || c = '\t' || c = '\n' || c = '\r' || c = '\x0b' || c = '\x0c'

/-- `str.trim()`. -/
def jsTrim (cs : List Char) : List Char :=
  ((cs.dropWhile jsWsChar).reverse.dropWhile jsWsChar).reverse

/-- Case-insensitive comparison key for header names (ASCII lowering, as a
numeric code so everything reduces). -/
def lowerCode (c : Char) : Nat :=
  if 65 ≤ c.toNat && c.toNat ≤ 90 then c.toNat + 32 else c.toNat

/-- A `Headers` object: name/value pairs, case-insensitive lookup.
`hget` models `headers.get(name)`: `none` for an absent header. -/
abbrev HeaderSet := List (String × String)

/-- `headers.get(name)`: case-insensitive lookup, first matching pair. -/
def hget (h : HeaderSet) (name : String) : Option String :=
  (h.find? (fun p => p.1.data.map lowerCode = name.data.map lowerCode)).map Prod.snd

/-! ### The `forwarded` header regex

`detect.ts` line 43 runs `ip.match(/for=(\[?[0-9a-fA-F:.]+\]?)/)` and, on a
match, returns capture group 1.  The character class admits hex digits,
`:` and `.`; the optional brackets are INSIDE the capture group.  We model
the regex engine's left-to-right scan: at each position try the literal
`for=` followed by the capture; the capture takes an optional `[`, then a
maximal non-empty run of class characters, then an optional `]`. -/

/-- Characters matched by the class `[0-9a-fA-F:.]`. -/
def forwardedClassChar (c : Char) : Bool :=
  c.isDigit || (('a' ≤ c) && (c ≤ 'f')) || (('A' ≤ c) && (c ≤ 'F')) || c = ':' || c = '.'

/-- The capture `(\[?[0-9a-fA-F:.]+\]?)` attempted at a fixed position:
optional opening bracket, a non-empty greedy run of class characters, an
optional closing bracket.  `none` when the run would be empty (then the
whole regex fails at this position, `[` itself not being in the class). -/
def forwardedCaptureAt (cs : List Char) : Option (List Char) :=
  match cs with
  | '[' :: r =>
    let run := r.takeWhile forwardedClassChar
    if run.isEmpty then none
    else
      match r.drop run.length with
      | ']' :: _ => some ('[' :: (run ++ [']']))
      | _ => some ('[' :: run)
  | r =>
    let run := r.takeWhile forwardedClassChar
    if run.isEmpty then none
    else
      match r.drop run.length with
      | ']' :: _ => some (run ++ [']'])
      | _ => some (run ++ [])

/-- Try the whole pattern anchored at the current position. -/
def forwardedTryAt (cs : List Char) : Option (List Char) :=
  match cs with
  | 'f' :: 'o' :: 'r' :: '=' :: r => forwardedCaptureAt r
  | _ => none

/-- `String.prototype.match` scan: first position (left to right) where the
pattern matches; the value is capture group 1. -/
def forwardedScan (cs : List Char) : Option (List Char) :=
  match cs with
  | [] => none
  | c :: rest =>
    match forwardedTryAt (c :: rest) with
    | some cap => some cap
    | none => forwardedScan rest

/-- Modelled from the spec: the constant list `IP_ADDRESS_HEADERS` comes from
`./constants`, a module not present in the sources; the spec describes it as
"a fixed ordered list of fallback header names (e.g. `x-real-ip`,
`forwarded`, etc.)". -/
def IP_ADDRESS_HEADERS : List String := ["x-real-ip", "forwarded"]

/-- The fallback loop of `getIpAddress` (detect.ts lines 39-50): first header
of the list with a truthy value wins; for the name `forwarded` the regex
capture is returned when the regex matches, otherwise the raw value. -/
def fallbackScan (headers : HeaderSet) : List String → Option String
  | [] => none
  | name :: rest =>
    let ip := hget headers name
    if jsTruthyS ip then
      if name = "forwarded" then
        match forwardedScan (ip.getD "").data with
        | some cap => some (String.mk cap)
        | none => ip
      else ip
    else fallbackScan headers rest

/-- `getIpAddress(headers)` (detect.ts lines 18-53). `clientIpHeaderEnv`
models `process.env.CLIENT_IP_HEADER`.  Steps: `cf-connecting-ip` when
truthy; the configured custom header when the env var and its value are
truthy; the trimmed first comma-separated piece of a truthy
`x-forwarded-for`; otherwise the fallback list; otherwise `null`. -/
def getIpAddress (clientIpHeaderEnv : Option String) (headers : HeaderSet) : Option String :=
  let cfIp := hget headers "cf-connecting-ip"
  if jsTruthyS cfIp then cfIp
  else if jsTruthyS clientIpHeaderEnv && jsTruthyS (hget headers (clientIpHeaderEnv.getD "")) then
    hget headers (clientIpHeaderEnv.getD "")
  else
    let forwardedFor := hget headers "x-forwarded-for"
    if jsTruthyS forwardedFor then
      some (String.mk (jsTrim (((splitChar ',' (forwardedFor.getD "").data)).headD [])))
    else
      fallbackScan headers IP_ADDRESS_HEADERS

/-! ### Device classification (`getDevice`, detect.ts lines 55-81)

The width string is coerced with JS unary `+`.  We model the relevant part
of `ToNumber` on strings: trimmed empty string is `0`; an optional sign
followed by a decimal literal (`123`, `123.45`, `.5`, `7.`) is its value;
anything else (the inputs the claims are about) is `NaN`.  (JS additionally
accepts hex/octal/binary/exponent literals and `Infinity`; none of those
shapes occur in the claims.)  `NaN` compares false under every relational
operator, which `jsLt`/`jsGt`/`jsGe` reproduce. -/

/-- A JS number as produced by coercing a width string.  A finite decimal
is stored exactly as `mantissa / 10 ^ scale` (so comparisons can be decided
by cross-multiplication in `Int`, which the kernel evaluates). -/
inductive JSNum where
  | nan : JSNum
  | dec (mantissa : Int) (scale : Nat) : JSNum
deriving DecidableEq

/-- A whole number as a JS value. -/
def JSNum.int (n : Int) : JSNum := .dec n 0

/-- Value of a digit list, most significant first. -/
def digitsVal (cs : List Char) : Nat :=
  cs.foldl (fun a c => a * 10 + (c.toNat - 48)) 0

/-- JS `ToNumber` on a string (decimal fragment; see section comment). -/
def jsToNumber (s : String) : JSNum :=
  let t := jsTrim s.data
  if t.isEmpty then .dec 0 0
  else
    let (sign, rest) : Int × List Char :=
      match t with
      | '-' :: r => (-1, r)
      | '+' :: r => (1, r)
      | r => (1, r)
    let intPart := rest.takeWhile Char.isDigit
    let rest2 := rest.drop intPart.length
    match rest2 with
    | [] => if intPart.isEmpty then .nan else .dec (sign * (digitsVal intPart : Int)) 0
    | '.' :: frac =>
      let fracPart := frac.takeWhile Char.isDigit
      if !(frac.drop fracPart.length).isEmpty then .nan
      else if intPart.isEmpty && fracPart.isEmpty then .nan
      else .dec (sign * ((digitsVal intPart : Int) * (10 : Int) ^ fracPart.length +
        (digitsVal fracPart : Int))) fracPart.length
    | _ => .nan

/-- JS `<` on coerced numbers: false whenever an operand is `NaN`. -/
def jsLt : JSNum → JSNum → Bool
  | .dec m1 s1, .dec m2 s2 => m1 * (10 : Int) ^ s2 < m2 * (10 : Int) ^ s1
  | _, _ => false

/-- JS `>` on coerced numbers: false whenever an operand is `NaN`. -/
def jsGt : JSNum → JSNum → Bool
  | .dec m1 s1, .dec m2 s2 => m1 * (10 : Int) ^ s2 > m2 * (10 : Int) ^ s1
  | _, _ => false

/-- JS `>=` on coerced numbers: false whenever an operand is `NaN`. -/
def jsGe : JSNum → JSNum → Bool
  | .dec m1 s1, .dec m2 s2 => m1 * (10 : Int) ^ s2 ≥ m2 * (10 : Int) ^ s1
  | _, _ => false

/-- Modelled from the spec: `DESKTOP_OS` comes from `./constants`, a module
not present in the sources; the spec calls it "a known desktop-OS set" whose
classification table places `Windows` and `Chrome OS` in it. -/
def DESKTOP_OS : List String :=
  ["BeOS", "Chrome OS", "Linux", "Mac OS", "Open BSD", "OS X", "QNX", "Sun OS", "Windows"]

/-- Modelled from the spec: `MOBILE_OS` comes from `./constants`, a module
not present in the sources; the spec calls it "a known mobile-OS set" whose
classification table places `iOS` and `Amazon OS` in it. -/
def MOBILE_OS : List String :=
  ["Amazon OS", "Android OS", "BlackBerry OS", "iOS", "Windows Mobile", "Windows Phone"]

/-- Modelled from the spec: numeric thresholds come from `./constants`, not
present in the sources; the spec requires "three descending thresholds"
consistent with its classification table (`1920` wide is a desktop, `375`
wide is a mobile). -/
def DESKTOP_SCREEN_WIDTH : Int := 1920

/-- Modelled from the spec: see `DESKTOP_SCREEN_WIDTH`. -/
def LAPTOP_SCREEN_WIDTH : Int := 1024

/-- Modelled from the spec: see `DESKTOP_SCREEN_WIDTH`. -/
def MOBILE_SCREEN_WIDTH : Int := 479

/-- `getDevice(screen, os)` (detect.ts lines 55-81): falsy screen returns
`undefined`; otherwise the piece before the first `x` is coerced to a
number and compared against the thresholds, with the OS-set special cases
for `Chrome OS` and `Amazon OS`. -/
def getDevice (screen : String) (os : String) : Option String :=
  if screen = "" then none
  else
    let width := String.mk ((splitChar 'x' screen.data).headD [])
    let w := jsToNumber width
    if DESKTOP_OS.contains os then
      if os = "Chrome OS" || jsLt w (.int DESKTOP_SCREEN_WIDTH) then some "laptop"
      else some "desktop"
    else if MOBILE_OS.contains os then
      if os = "Amazon OS" || jsGt w (.int MOBILE_SCREEN_WIDTH) then some "tablet"
      else some "mobile"
    else
      if jsGe w (.int DESKTOP_SCREEN_WIDTH) then some "desktop"
      else if jsGe w (.int LAPTOP_SCREEN_WIDTH) then some "laptop"
      else if jsGe w (.int MOBILE_SCREEN_WIDTH) then some "tablet"
      else some "mobile"

/-! ### Header decoding (`decodeHeader`, detect.ts lines 91-97)

`Buffer.from(s, 'latin1')` keeps the low byte of every UTF-16 code unit;
`.toString('utf-8')` decodes those bytes as UTF-8, substituting U+FFFD for
invalid sequences per the WHATWG decoder (shortest-form only, surrogates
and values above U+10FFFF rejected, the offending lead byte consumed and
the scan resumed at the following byte). -/

/-- The low byte of each character, as `Buffer.from(s, 'latin1')` takes it. -/
def latin1Bytes (s : String) : List Nat :=
  s.data.map (fun c => c.toNat % 256)

/-- A UTF-8 continuation byte. -/
def contByte (b : Nat) : Bool := 128 ≤ b && b < 192

/-- The WHATWG UTF-8 decoder with U+FFFD replacement.  Fuel-driven so the
recursion is structural; the fuel is the byte count, and every step consumes
at least one byte. -/
def utf8DecodeAux : Nat → List Nat → List Char
  | 0, _ => []
  | _, [] => []
  | fuel + 1, b :: bs =>
    if b < 128 then Char.ofNat b :: utf8DecodeAux fuel bs
    else if b < 194 then Char.ofNat 0xFFFD :: utf8DecodeAux fuel bs
    else if b < 224 then
      match bs with
      | [] => [Char.ofNat 0xFFFD]
      | b1 :: bs1 =>
        if contByte b1 then
          Char.ofNat ((b - 192) * 64 + (b1 - 128)) :: utf8DecodeAux fuel bs1
        else Char.ofNat 0xFFFD :: utf8DecodeAux fuel bs
    else if b < 240 then
      match bs with
      | [] => [Char.ofNat 0xFFFD]
      | b1 :: bs1 =>
        let lo := if b = 224 then 160 else 128
        let hi := if b = 237 then 159 else 191
        if lo ≤ b1 && b1 ≤ hi then
          match bs1 with
          | [] => [Char.ofNat 0xFFFD]
          | b2 :: bs2 =>
            if contByte b2 then
              Char.ofNat ((b - 224) * 4096 + (b1 - 128) * 64 + (b2 - 128)) ::
                utf8DecodeAux fuel bs2
            else Char.ofNat 0xFFFD :: utf8DecodeAux fuel bs1
        else Char.ofNat 0xFFFD :: utf8DecodeAux fuel bs
    else if b < 245 then
      match bs with
      | [] => [Char.ofNat 0xFFFD]
      | b1 :: bs1 =>
        let lo := if b = 240 then 144 else 128
        let hi := if b = 244 then 143 else 191
        if lo ≤ b1 && b1 ≤ hi then
          match bs1 with
          | [] => [Char.ofNat 0xFFFD]
          | b2 :: bs2 =>
            if contByte b2 then
              match bs2 with
              | [] => [Char.ofNat 0xFFFD]
              | b3 :: bs3 =>
                if contByte b3 then
                  Char.ofNat ((b - 240) * 262144 + (b1 - 128) * 4096 +
                    (b2 - 128) * 64 + (b3 - 128)) :: utf8DecodeAux fuel bs3
                else Char.ofNat 0xFFFD :: utf8DecodeAux fuel bs2
            else Char.ofNat 0xFFFD :: utf8DecodeAux fuel bs1
        else Char.ofNat 0xFFFD :: utf8DecodeAux fuel bs
    else Char.ofNat 0xFFFD :: utf8DecodeAux fuel bs

/-- Decode a byte list as UTF-8 text. -/
def utf8Decode (bs : List Nat) : List Char :=
  utf8DecodeAux bs.length bs

/-- `decodeHeader(s)` on a present string (detect.ts line 96). -/
def decodeHeader (s : String) : String :=
  String.mk (utf8Decode (latin1Bytes s))

/-- `decodeHeader` including the `null`/`undefined` pass-through of
detect.ts lines 92-94. -/
def decodeHeaderOpt (s : Option String) : Option String :=
  s.map decodeHeader

/-! ### Location resolution (`getRegionCode`, `getLocation`) -/

/-- `getRegionCode(country, region)` (detect.ts lines 83-89): `undefined`
when either argument is falsy; the region itself when it already contains a
hyphen; otherwise the composite `country-region`. -/
def getRegionCode (country region : Option String) : Option String :=
  if !jsTruthyS country || !jsTruthyS region then none
  else
    let r := region.getD ""
    if r.data.contains '-' then some r
    else some ((country.getD "") ++ "-" ++ r)

/-- A `country` / `registered_country` record of a maxmind result: the
`iso_code` field may be absent. -/
structure CountryRec where
  iso_code : Option String
deriving DecidableEq

/-- A subdivision record of a maxmind result. -/
structure SubdivisionRec where
  iso_code : Option String
deriving DecidableEq

/-- The `names` record of a maxmind city. -/
structure CityNames where
  en : Option String
deriving DecidableEq

/-- The `city` record of a maxmind result. -/
structure CityRec where
  names : Option CityNames
deriving DecidableEq

/-- A maxmind lookup result, restricted to the fields detect.ts reads. -/
structure GeoResult where
  country : Option CountryRec
  registered_country : Option CountryRec
  subdivisions : Option (List SubdivisionRec)
  city : Option CityRec
deriving DecidableEq

/-- The record `getLocation` returns. -/
structure Location where
  country : Option String
  region : Option String
  city : Option String
deriving DecidableEq

/-- JS `a ?? b` on possibly-absent strings. -/
def jsCoalesce (a b : Option String) : Option String :=
  match a with
  | some v => some v
  | none => b

/-- `getLocation(ip, headers, hasPayloadIP)` (detect.ts lines 99-157).
`skipEnv` models `process.env.SKIP_LOCATION_HEADERS`; `isLocal` models the
external `is-localhost-ip` collaborator; `db` models the opened maxmind
reader (`global[MAXMIND].get`), with `none` for "no record" (the open
itself is modelled separately, see `stepCaller`).  Local IPs resolve to
nothing; the Cloudflare then Vercel header fast paths run only when the IP
was not payload-supplied and the skip flag is not set; otherwise the reader
is queried with `ip.split(':')[0]` and the result's fields are projected. -/
def getLocation (skipEnv : Option String) (isLocal : String → Bool)
    (db : String → Option GeoResult) (ip : String) (headers : HeaderSet)
    (hasPayloadIP : Bool) : Option Location :=
  if isLocal ip then none
  else
    let fastPath : Option Location :=
      if !hasPayloadIP && !jsTruthyS skipEnv then
        if jsTruthyS (hget headers "cf-ipcountry") then
          let country := decodeHeaderOpt (hget headers "cf-ipcountry")
          let region := decodeHeaderOpt (hget headers "cf-region-code")
          let city := decodeHeaderOpt (hget headers "cf-ipcity")
          some { country := country, region := getRegionCode country region, city := city }
        else if jsTruthyS (hget headers "x-vercel-ip-country") then
          let country := decodeHeaderOpt (hget headers "x-vercel-ip-country")
          let region := decodeHeaderOpt (hget headers "x-vercel-ip-country-region")
          let city := decodeHeaderOpt (hget headers "x-vercel-ip-city")
          some { country := country, region := getRegionCode country region, city := city }
        else none
      else none
    match fastPath with
    | some loc => some loc
    | none =>
      let cleanIp := String.mk ((splitChar ':' ip.data).headD [])
      match db cleanIp with
      | some result =>
        let country := jsCoalesce (result.country.bind CountryRec.iso_code)
          (result.registered_country.bind CountryRec.iso_code)
        let region := (result.subdivisions.bind List.head?).bind SubdivisionRec.iso_code
        let city := (result.city.bind CityRec.names).bind CityNames.en
        some { country := country, region := getRegionCode country region, city := city }
      | none => none

/-! ### The `ipaddr.js` collaborator (parse, parseCIDR, kind, match)

`hasBlockedIp` delegates parsing and range matching to the external
`ipaddr.js` library.  We model the formats the blocklist uses: dotted-quad
decimal IPv4 and colon-hex IPv6 with an optional `::` gap.  (`ipaddr.js`
additionally accepts octal/hex IPv4 spellings, IPv4-embedded IPv6 and zone
ids; no claim exercises those.)  A parse failure models the library throwing,
which `blockedScan` surfaces as `Except.error`. -/

/-- An address: four octets, or eight 16-bit IPv6 parts. -/
inductive IPAddr where
  | v4 (octets : List Nat) : IPAddr
  | v6 (parts : List Nat) : IPAddr
deriving DecidableEq

/-- One decimal IPv4 piece: non-empty digits valued at most 255. -/
def v4Piece (cs : List Char) : Option Nat :=
  if cs.isEmpty then none
  else if !(cs.all Char.isDigit) then none
  else
    let v := digitsVal cs
    if v ≤ 255 then some v else none

/-- Dotted-quad IPv4 parse. -/
def parseIPv4 (s : String) : Option (List Nat) :=
  match (splitChar '.' s.data).mapM v4Piece with
  | some ps => if ps.length = 4 then some ps else none
  | none => none

/-- Value of a hex digit, `none` otherwise. -/
def hexVal (c : Char) : Option Nat :=
  if c.isDigit then some (c.toNat - 48)
  else if 'a' ≤ c && c ≤ 'f' then some (c.toNat - 87)
  else if 'A' ≤ c && c ≤ 'F' then some (c.toNat - 70)
  else none

/-- One IPv6 group: one to four hex digits. -/
def v6Group (cs : List Char) : Option Nat :=
  if cs.isEmpty || cs.length > 4 then none
  else cs.foldlM (fun a c => (hexVal c).map (fun v => a * 16 + v)) 0

/-- Split a character list at the first occurrence of `::`, if any. -/
def splitDoubleColon : List Char → Option (List Char × List Char)
  | [] => none
  | ':' :: ':' :: rest => some ([], rest)
  | c :: rest =>
    match splitDoubleColon rest with
    | some (l, r) => some (c :: l, r)
    | none => none

/-- The groups of one side of a `::`, empty side meaning no groups. -/
def v6Side (cs : List Char) : Option (List Nat) :=
  if cs.isEmpty then some []
  else (splitChar ':' cs).mapM v6Group

/-- Colon-hex IPv6 parse with at most one `::` gap. -/
def parseIPv6 (s : String) : Option (List Nat) :=
  match splitDoubleColon s.data with
  | some (l, r) =>
    if splitDoubleColon r matches some _ then none
    else
      match v6Side l, v6Side r with
      | some gl, some gr =>
        if gl.length + gr.length ≤ 7 then
          some (gl ++ List.replicate (8 - gl.length - gr.length) 0 ++ gr)
        else none
      | _, _ => none
  | none =>
    match (splitChar ':' s.data).mapM v6Group with
    | some gs => if gs.length = 8 then some gs else none
    | none => none

/-- `ipaddr.parse`: IPv6 first, then IPv4, mirroring the library's
`isValid` order; `none` models the throw. -/
def ipaddrParse (s : String) : Option IPAddr :=
  match parseIPv6 s with
  | some ps => some (.v6 ps)
  | none => (parseIPv4 s).map .v4

/-- Bit width of an address family. -/
def ipBits : IPAddr → Nat
  | .v4 _ => 32
  | .v6 _ => 128

/-- `addr.kind() === range.kind()`. -/
def kindEq : IPAddr → IPAddr → Bool
  | .v4 _, .v4 _ => true
  | .v6 _, .v6 _ => true
  | _, _ => false

/-- Join pieces with `/` (to recover the address part of a CIDR whose
address itself contained `/` characters, as the greedy `(.+)` does). -/
def joinSlash : List (List Char) → List Char
  | [] => []
  | [p] => p
  | p :: ps => p ++ '/' :: joinSlash ps

/-- `ipaddr.parseCIDR`: the regex `(.+)\/(\d+)` splits at the last slash;
the prefix length must be decimal digits not exceeding the family's bit
width; `none` models the throw. -/
def parseCIDR (s : String) : Option (IPAddr × Nat) :=
  let parts := splitChar '/' s.data
  if parts.length < 2 then none
  else
    match parts.getLast? with
    | none => none
    | some pstr =>
      let addrStr := String.mk (joinSlash parts.dropLast)
      if addrStr = "" then none
      else if pstr.isEmpty || !(pstr.all Char.isDigit) then none
      else
        match ipaddrParse addrStr with
        | none => none
        | some a =>
          let bits := digitsVal pstr
          if bits ≤ ipBits a then some (a, bits) else none

/-- The library's `matchCIDR` loop: compare parts high to low, the last
compared part shifted right so only the leading `bits` bits count. -/
def matchCIDRBits (partSize : Nat) : List Nat → List Nat → Nat → Bool
  | [], [], _ => true
  | a :: as, b :: bs, bits =>
    if bits = 0 then true
    else
      let shift := partSize - min bits partSize
      (a / 2 ^ shift = b / 2 ^ shift) && matchCIDRBits partSize as bs (bits - min bits partSize)
  | _, _, _ => false

/-- The parts and part size `matchCIDR` works over. -/
def ipParts : IPAddr → List Nat
  | .v4 os => os
  | .v6 ps => ps

/-- Part size: 8-bit octets for v4, 16-bit groups for v6. -/
def ipPartSize : IPAddr → Nat
  | .v4 _ => 8
  | .v6 _ => 16

/-- `addr.kind() === range.kind() && addr.match(range)` (detect.ts line
193): a family mismatch is simply false, never an error. -/
def ipMatchRange (addr raddr : IPAddr) (bits : Nat) : Bool :=
  kindEq addr raddr && matchCIDRBits (ipPartSize addr) (ipParts addr) (ipParts raddr) bits

/-! ### The blocklist (`hasBlockedIp`, detect.ts lines 173-201) -/

/-- `'/'` at an index strictly above zero (`ip.indexOf('/') > 0`). -/
def hasSlashPos (s : String) : Bool :=
  match s.data with
  | [] => false
  | c :: rest => c ≠ '/' && rest.contains '/'

/-- The `ips.find(...)` loop of `hasBlockedIp`: the JS callback returns
true on an exact string match, and for an entry with a slash past position
zero parses the candidate then the entry as a CIDR — either parse failure
THROWS out of the whole `find` (modelled as `Except.error`) — and returns
true on a same-family in-range match.  `find` yields the matching ENTRY
(`some entry`) or `undefined` (`none`). -/
def blockedScan (clientIp : String) : List String → Except String (Option String)
  | [] => .ok none
  | ip :: rest =>
    if ip = clientIp then .ok (some ip)
    else if hasSlashPos ip then
      match ipaddrParse clientIp with
      | none => .error "ipaddr: invalid address"
      | some addr =>
        match parseCIDR ip with
        | none => .error "ipaddr: invalid CIDR"
        | some (raddr, bits) =>
          if ipMatchRange addr raddr bits then .ok (some ip)
          else blockedScan clientIp rest
    else blockedScan clientIp rest

/-- `hasBlockedIp(clientIp)` (detect.ts lines 173-201).  `ignoreIpsEnv`
models `process.env.IGNORE_IP`; a falsy value short-circuits to the literal
`false`, here folded with `find`'s `undefined` into `.ok none` (both JS
values are falsy).  Otherwise the comma-split, trimmed entries are scanned;
the result is the found entry, `undefined`, or a thrown parse error. -/
def hasBlockedIp (ignoreIpsEnv : Option String) (clientIp : String) :
    Except String (Option String) :=
  if jsTruthyS ignoreIpsEnv then
    let ips := (splitChar ',' (ignoreIpsEnv.getD "").data).map (fun cs => String.mk (jsTrim cs))
    blockedScan clientIp ips
  else .ok none

/-! ### The database-open race (detect.ts lines 134-140)

`getLocation` initializes the process-wide reader with
`if (!global[MAXMIND]) { global[MAXMIND] = await maxmind.open(...) }`:
a check, a suspension, then an assignment.  We model the shared state and
each caller's position explicitly: a caller at `start` atomically reads the
global and either adopts the existing handle or commits to opening; a
caller at `opening` performs the open (numbering the handles by the running
count of `maxmind.open` calls) and assigns the global.  A schedule
interleaves callers' steps. -/

/-- The shared state: the `global[MAXMIND]` slot and the number of
`maxmind.open` calls performed so far. -/
structure GeoState where
  handle : Option Nat
  openCount : Nat
deriving DecidableEq

/-- A caller's position inside the initialization block: before the check,
committed to opening after a falsy check, or past the block holding the
handle it will use. -/
inductive CallerPc where
  | start : CallerPc
  | opening : CallerPc
  | done (h : Nat) : CallerPc
deriving DecidableEq

/-- One atomic step of one caller. -/
def stepCaller (st : GeoState) (pc : CallerPc) : GeoState × CallerPc :=
  match pc with
  | .start =>
    match st.handle with
    | some h => (st, .done h)
    | none => (st, .opening)
  | .opening => ({ handle := some st.openCount, openCount := st.openCount + 1 }, .done st.openCount)
  | .done h => (st, .done h)

/-- Run a schedule: each entry names the caller that takes the next step
(out-of-range entries are no-ops). -/
def runSchedule (sched : List Nat) (st : GeoState) (pcs : List CallerPc) :
    GeoState × List CallerPc :=
  match sched with
  | [] => (st, pcs)
  | i :: rest =>
    match pcs.get? i with
    | none => runSchedule rest st pcs
    | some pc =>
      let (st2, pc2) := stepCaller st pc
      runSchedule rest st2 (pcs.set i pc2)

/-! ## Theorems -/

/-- C5 (amended): `getIpAddress` applies first-match-wins precedence with no
merging, where each stage fires only on a PRESENT AND NON-EMPTY (truthy)
value: a truthy `cf-connecting-ip` is returned verbatim; else a configured
custom header with a truthy value; else a truthy `x-forwarded-for` yields
the trimmed first comma-separated entry; else the scan of the fixed
fallback list decides, and with every fallback header non-truthy the result
is absent. -/
theorem C5_precedence_nonempty (env : Option String) (headers : HeaderSet) :
    (jsTruthyS (hget headers "cf-connecting-ip") = true →
      getIpAddress env headers = hget headers "cf-connecting-ip") ∧
    (jsTruthyS (hget headers "cf-connecting-ip") = false →
      (jsTruthyS env && jsTruthyS (hget headers (env.getD ""))) = true →
      getIpAddress env headers = hget headers (env.getD "")) ∧
    (jsTruthyS (hget headers "cf-connecting-ip") = false →
      (jsTruthyS env && jsTruthyS (hget headers (env.getD ""))) = false →
      jsTruthyS (hget headers "x-forwarded-for") = true →
      getIpAddress env headers =
        some (String.mk (jsTrim
          ((splitChar ',' ((hget headers "x-forwarded-for").getD "").data).headD [])))) ∧
    (jsTruthyS (hget headers "cf-connecting-ip") = false →
      (jsTruthyS env && jsTruthyS (hget headers (env.getD ""))) = false →
      jsTruthyS (hget headers "x-forwarded-for") = false →
      getIpAddress env headers = fallbackScan headers IP_ADDRESS_HEADERS) ∧
    (jsTruthyS (hget headers "x-real-ip") = false →
      jsTruthyS (hget headers "forwarded") = false →
      fallbackScan headers IP_ADDRESS_HEADERS = none) := by
  refine ⟨?_, ?_, ?_, ?_, ?_⟩
  · intro h1
    simp [getIpAddress, h1]
  · intro h1 h2
    simp [getIpAddress, h1, h2]
  · intro h1 h2 h3
    simp [getIpAddress, h1, h2, h3]
  · intro h1 h2 h3
    simp [getIpAddress, h1, h2, h3]
  · intro h1 h2
    simp [fallbackScan, IP_ADDRESS_HEADERS, h1, h2]

/-- C5 witness: with both `cf-connecting-ip` and `x-forwarded-for` present
and non-empty the Cloudflare value wins, and an `x-forwarded-for`-only set
yields the first comma-separated entry. -/
theorem C5_precedence_nonempty_witness :
    getIpAddress none [("cf-connecting-ip", "9.9.9.9"), ("x-forwarded-for", "1.2.3.4")]
      = some "9.9.9.9" ∧
    getIpAddress none [("x-forwarded-for", "1.2.3.4, 5.6.7.8")] = some "1.2.3.4" := by
  constructor
  · have h := (C5_precedence_nonempty none
      [("cf-connecting-ip", "9.9.9.9"), ("x-forwarded-for", "1.2.3.4")]).1 (by decide)
    rw [h]
    decide
  · have h := (C5_precedence_nonempty none
      [("x-forwarded-for", "1.2.3.4, 5.6.7.8")]).2.2.1 (by decide) (by decide) (by decide)
    rw [h]
    decide

/-- C5 counterexample: the claim says the result equals the
`cf-connecting-ip` value whenever that header and `x-forwarded-for` are both
present; with `cf-connecting-ip` present but empty the code falls through to
`x-forwarded-for` and returns a value different from the `cf-connecting-ip`
value. -/
theorem C5_counterexample :
    hget [("cf-connecting-ip", ""), ("x-forwarded-for", "1.2.3.4")] "cf-connecting-ip"
      = some "" ∧
    getIpAddress none [("cf-connecting-ip", ""), ("x-forwarded-for", "1.2.3.4")]
      = some "1.2.3.4" ∧
    (some "1.2.3.4" : Option String) ≠ some "" := by decide

/-- C9 (confirmed): when neither `cf-connecting-ip` nor the custom header
matched and `x-forwarded-for` is present non-empty, the result is always the
trimmed first comma-separated entry — for every header set, so the fallback
list is never consulted — and for the value `", 5.6.7.8"` that entry trims
to the empty string, which is returned in place of absent. -/
theorem C9_xff_first_entry (env : Option String) (headers : HeaderSet) (v : String) :
    jsTruthyS (hget headers "cf-connecting-ip") = false →
    (jsTruthyS env && jsTruthyS (hget headers (env.getD ""))) = false →
    hget headers "x-forwarded-for" = some v → v ≠ "" →
    getIpAddress env headers = some (String.mk (jsTrim ((splitChar ',' v.data).headD []))) ∧
    (v = ", 5.6.7.8" → getIpAddress env headers = some "") := by
  intro h1 h2 h3 h4
  have hmain : getIpAddress env headers
      = some (String.mk (jsTrim ((splitChar ',' v.data).headD []))) := by
    have htr : jsTruthyS (some v) = true := by
      simpa [jsTruthyS] using h4
    simp [getIpAddress, h1, h2, h3, htr]
  refine ⟨hmain, ?_⟩
  rintro rfl
  rw [hmain]
  decide

/-- C9 witness: `x-forwarded-for: ", 5.6.7.8"` resolves to the empty string
even though a non-empty `x-real-ip` fallback is present. -/
theorem C9_xff_first_entry_witness :
    getIpAddress none [("x-forwarded-for", ", 5.6.7.8"), ("x-real-ip", "9.9.9.9")]
      = some "" := by
  exact (C9_xff_first_entry none
    [("x-forwarded-for", ", 5.6.7.8"), ("x-real-ip", "9.9.9.9")] ", 5.6.7.8"
    (by decide) (by decide) (by decide) (by decide)).2 rfl

/-- C1 (amended): when the scan reaches a non-empty generic `forwarded`
header, the code returns the regex capture WHEN the regex
`for=(\[?[0-9a-fA-F:.]+\]?)` matches — and the capture keeps any
surrounding brackets, they are not stripped — and otherwise returns the raw
header value; in particular the unquoted `for=[2001:db8::1];proto=https`
resolves to `[2001:db8::1]`, while the quoted
`for="[2001:db8::1]";proto=https` does not match (the quote is outside the
character class) and resolves to the whole raw value. -/
theorem C1_forwarded_capture_or_raw :
    (∀ (env : Option String) (headers : HeaderSet) (v : String),
      jsTruthyS (hget headers "cf-connecting-ip") = false →
      (jsTruthyS env && jsTruthyS (hget headers (env.getD ""))) = false →
      jsTruthyS (hget headers "x-forwarded-for") = false →
      jsTruthyS (hget headers "x-real-ip") = false →
      hget headers "forwarded" = some v → v ≠ "" →
      getIpAddress env headers =
        (match forwardedScan v.data with
         | some cap => some (String.mk cap)
         | none => some v)) ∧
    forwardedScan ("for=[2001:db8::1];proto=https").data = some ("[2001:db8::1]").data ∧
    forwardedScan ("for=\"[2001:db8::1]\";proto=https").data = none := by
  refine ⟨?_, by decide, by decide⟩
  intro env headers v h1 h2 h3 h4 h5 h6
  have htr : jsTruthyS (hget headers "forwarded") = true := by
    rw [h5]
    simpa [jsTruthyS] using h6
  simp only [getIpAddress, h1, h2, h3, Bool.false_eq_true, if_false]
  simp only [fallbackScan, IP_ADDRESS_HEADERS, h4, Bool.false_eq_true, if_false, htr, if_true]
  rw [h5]
  cases h : forwardedScan v.data <;> simp [h]

/-- C1 witness: the unquoted bracketed `forwarded` value resolves to the
capture with brackets kept. -/
theorem C1_forwarded_capture_or_raw_witness :
    getIpAddress none [("forwarded", "for=[2001:db8::1];proto=https")]
      = some "[2001:db8::1]" := by
  have h := C1_forwarded_capture_or_raw.1 none
    [("forwarded", "for=[2001:db8::1];proto=https")] "for=[2001:db8::1];proto=https"
    (by decide) (by decide) (by decide) (by decide) (by decide) (by decide)
  rw [h]
  decide

/-- C1 counterexample: for the spec's example value
`for="[2001:db8::1]";proto=https` the claim demands `2001:db8::1`; the regex
does not match the quoted form, so the code returns the raw header value
instead. -/
theorem C1_counterexample :
    getIpAddress none [("forwarded", "for=\"[2001:db8::1]\";proto=https")]
      = some "for=\"[2001:db8::1]\";proto=https" ∧
    (some "for=\"[2001:db8::1]\";proto=https" : Option String) ≠ some "2001:db8::1" := by
  decide

/-- C7 (confirmed): `getDevice` returns absent on an empty screen; otherwise
the width is the piece before the first `x`, coerced to a number; a
desktop-set OS gives `laptop` iff it is `Chrome OS` or the width is below
the desktop threshold, else `desktop`; a mobile-set OS gives `tablet` iff it
is `Amazon OS` or the width exceeds the mobile threshold, else `mobile`; any
other OS classifies purely by the three descending thresholds; and the
spec's four concrete classifications hold. -/
theorem C7_device_classification :
    (∀ screen os : String,
      (screen = "" → getDevice screen os = none) ∧
      (screen ≠ "" → DESKTOP_OS.contains os = true →
        getDevice screen os =
          if (os = "Chrome OS" ||
              jsLt (jsToNumber (String.mk ((splitChar 'x' screen.data).headD [])))
                (.int DESKTOP_SCREEN_WIDTH)) = true
          then some "laptop" else some "desktop") ∧
      (screen ≠ "" → DESKTOP_OS.contains os = false → MOBILE_OS.contains os = true →
        getDevice screen os =
          if (os = "Amazon OS" ||
              jsGt (jsToNumber (String.mk ((splitChar 'x' screen.data).headD [])))
                (.int MOBILE_SCREEN_WIDTH)) = true
          then some "tablet" else some "mobile") ∧
      (screen ≠ "" → DESKTOP_OS.contains os = false → MOBILE_OS.contains os = false →
        getDevice screen os =
          if jsGe (jsToNumber (String.mk ((splitChar 'x' screen.data).headD [])))
              (.int DESKTOP_SCREEN_WIDTH) = true then some "desktop"
          else if jsGe (jsToNumber (String.mk ((splitChar 'x' screen.data).headD [])))
              (.int LAPTOP_SCREEN_WIDTH) = true then some "laptop"
          else if jsGe (jsToNumber (String.mk ((splitChar 'x' screen.data).headD [])))
              (.int MOBILE_SCREEN_WIDTH) = true then some "tablet"
          else some "mobile")) ∧
    getDevice "1920x1080" "Windows" = some "desktop" ∧
    getDevice "375x667" "iOS" = some "mobile" ∧
    getDevice "1024x768" "Amazon OS" = some "tablet" ∧
    getDevice "800x600" "Chrome OS" = some "laptop" := by
  refine ⟨?_, by decide, by decide, by decide, by decide⟩
  intro screen os
  refine ⟨?_, ?_, ?_, ?_⟩
  · intro h
    simp [getDevice, h]
  · intro h1 h2
    have h2m : os ∈ DESKTOP_OS := by simpa [List.contains] using h2
    simp [getDevice, h1, h2m]
  · intro h1 h2 h3
    have h2m : os ∉ DESKTOP_OS := by simpa [List.contains] using h2
    have h3m : os ∈ MOBILE_OS := by simpa [List.contains] using h3
    simp [getDevice, h1, h2m, h3m]
  · intro h1 h2 h3
    have h2m : os ∉ DESKTOP_OS := by simpa [List.contains] using h2
    have h3m : os ∉ MOBILE_OS := by simpa [List.contains] using h3
    simp [getDevice, h1, h2m, h3m]

/-- C7 witness: a desktop-set OS below the desktop threshold classifies as a
laptop. -/
theorem C7_device_classification_witness :
    getDevice "666x999" "Windows" = some "laptop" := by
  have h := (C7_device_classification.1 "666x999" "Windows").2.1 (by decide) (by decide)
  rw [h]
  decide

/-- C10 (confirmed): `getDevice` is total on malformed screens — with a
non-empty screen whose width piece coerces to `NaN`, every threshold
comparison is false, so a desktop-set OS other than `Chrome OS` yields
`desktop`, a mobile-set OS other than `Amazon OS` yields `mobile`, and an
OS in neither set yields `mobile`. -/
theorem C10_nan_width_total (screen os : String) :
    screen ≠ "" →
    jsToNumber (String.mk ((splitChar 'x' screen.data).headD [])) = JSNum.nan →
    (DESKTOP_OS.contains os = true → os ≠ "Chrome OS" →
      getDevice screen os = some "desktop") ∧
    (MOBILE_OS.contains os = true → os ≠ "Amazon OS" →
      getDevice screen os = some "mobile") ∧
    (DESKTOP_OS.contains os = false → MOBILE_OS.contains os = false →
      getDevice screen os = some "mobile") := by
  intro h1 hnan
  rw [List.headD_eq_head?] at hnan
  refine ⟨?_, ?_, ?_⟩
  · intro h2 h3
    have h2m : os ∈ DESKTOP_OS := by simpa [List.contains] using h2
    simp [getDevice, h1, h2m, h3, hnan, jsLt]
  · intro h2 h3
    have h2m : os ∈ MOBILE_OS := by simpa [List.contains] using h2
    have hd : os ∉ DESKTOP_OS := by
      simp only [MOBILE_OS, List.mem_cons, List.not_mem_nil, or_false] at h2m
      rcases h2m with rfl | rfl | rfl | rfl | rfl | rfl <;> decide
    simp [getDevice, h1, hd, h2m, h3, hnan, jsGt]
  · intro h2 h3
    have h2m : os ∉ DESKTOP_OS := by simpa [List.contains] using h2
    have h3m : os ∉ MOBILE_OS := by simpa [List.contains] using h3
    simp [getDevice, h1, h2m, h3m, hnan, jsGe]

/-- C10 witness: a non-numeric width with a desktop OS still classifies
(to `desktop`), with a mobile OS to `mobile`, and with an unknown OS to
`mobile`. -/
theorem C10_nan_width_total_witness :
    getDevice "abcx600" "Windows" = some "desktop" ∧
    getDevice "abcx600" "iOS" = some "mobile" ∧
    getDevice "abcx600" "Solaris" = some "mobile" := by
  refine ⟨?_, ?_, ?_⟩
  · exact (C10_nan_width_total "abcx600" "Windows" (by decide) (by decide)).1
      (by decide) (by decide)
  · exact (C10_nan_width_total "abcx600" "iOS" (by decide) (by decide)).2.1
      (by decide) (by decide)
  · exact (C10_nan_width_total "abcx600" "Solaris" (by decide) (by decide)).2.2
      (by decide) (by decide)

/-- C4 (amended): `hasBlockedIp` yields a falsy value (`false` or
`undefined`, both folded to `.ok none`) whenever the blocklist configuration
is empty or absent; scanning entries in order, an entry string-equal to the
candidate short-circuits with that entry as the (truthy unless empty)
result; an entry containing `/` past position zero whose candidate and
range both parse matches iff the families are equal and the address falls
in the range — a family mismatch is a plain non-match, not an error; and
the spec's examples hold: `10.0.0.0/8` blocks `10.1.2.3` and not
`192.168.1.1` (nor the other-family `::1`), and the exact entry `1.2.3.4`
blocks that literal and nothing else. -/
theorem C4_blocklist_semantics :
    (∀ ip : String, hasBlockedIp none ip = .ok none ∧ hasBlockedIp (some "") ip = .ok none) ∧
    (∀ (clientIp : String) (rest : List String),
      blockedScan clientIp (clientIp :: rest) = .ok (some clientIp)) ∧
    (∀ (clientIp e : String) (rest : List String) (a raddr : IPAddr) (bits : Nat),
      e ≠ clientIp → hasSlashPos e = true →
      ipaddrParse clientIp = some a → parseCIDR e = some (raddr, bits) →
      blockedScan clientIp (e :: rest) =
        if ipMatchRange a raddr bits = true then .ok (some e)
        else blockedScan clientIp rest) ∧
    hasBlockedIp (some "10.0.0.0/8") "10.1.2.3" = .ok (some "10.0.0.0/8") ∧
    hasBlockedIp (some "10.0.0.0/8") "192.168.1.1" = .ok none ∧
    hasBlockedIp (some "10.0.0.0/8") "::1" = .ok none ∧
    hasBlockedIp (some "1.2.3.4") "1.2.3.4" = .ok (some "1.2.3.4") ∧
    (∀ c : String, c ≠ "1.2.3.4" → hasBlockedIp (some "1.2.3.4") c = .ok none) := by
  refine ⟨?_, ?_, ?_, by decide, by decide, by decide, by decide, ?_⟩
  · intro ip
    exact ⟨rfl, rfl⟩
  · intro clientIp rest
    simp [blockedScan]
  · intro clientIp e rest a raddr bits h1 h2 h3 h4
    simp [blockedScan, h1, h2, h3, h4]
  · intro c hc
    have h : hasBlockedIp (some "1.2.3.4") c = blockedScan c ["1.2.3.4"] := rfl
    rw [h]
    have hne : ¬("1.2.3.4" = c) := fun hh => hc hh.symm
    simp [blockedScan, hne, show hasSlashPos "1.2.3.4" = false from by decide]

/-- C4 witness: the CIDR-step equation at `10.0.0.0/8` against `10.1.2.3`,
and a candidate other than the exact entry is not blocked. -/
theorem C4_blocklist_semantics_witness :
    blockedScan "10.1.2.3" ["10.0.0.0/8"] = .ok (some "10.0.0.0/8") ∧
    hasBlockedIp (some "1.2.3.4") "5.6.7.8" = .ok none := by
  constructor
  · have h := C4_blocklist_semantics.2.2.1 "10.1.2.3" "10.0.0.0/8" []
      (IPAddr.v4 [10, 1, 2, 3]) (IPAddr.v4 [10, 0, 0, 0]) 8
      (by decide) (by decide) (by decide) (by decide)
    rw [h]
    decide
  · exact C4_blocklist_semantics.2.2.2.2.2.2.2 "5.6.7.8" (by decide)

/-- C4 counterexample: the claim says some configured entry equal to the
candidate makes the result true; with configuration `","` (two empty
entries) and the empty candidate the entry equals the candidate, yet the
function returns the found entry `""`, which is falsy, not true. -/
theorem C4_counterexample :
    hasBlockedIp (some ",") "" = .ok (some "") ∧ jsTruthyS (some "") = false := by decide

/-- C2 (corrected): a malformed candidate or a malformed CIDR entry DOES
abort the whole evaluation — reaching an entry with `/` past position zero
parses the candidate and then the entry, and either failure throws out of
`find`, so later entries are never examined; only entries without such a
slash tolerate malformed strings (they are merely string-compared and the
scan continues). -/
theorem C2_malformed_aborts :
    (∀ (clientIp e : String) (rest : List String),
      e ≠ clientIp → hasSlashPos e = true → ipaddrParse clientIp = none →
      blockedScan clientIp (e :: rest) = .error "ipaddr: invalid address") ∧
    (∀ (clientIp e : String) (rest : List String) (a : IPAddr),
      e ≠ clientIp → hasSlashPos e = true →
      ipaddrParse clientIp = some a → parseCIDR e = none →
      blockedScan clientIp (e :: rest) = .error "ipaddr: invalid CIDR") ∧
    (∀ (clientIp e : String) (rest : List String),
      e ≠ clientIp → hasSlashPos e = false →
      blockedScan clientIp (e :: rest) = blockedScan clientIp rest) := by
  refine ⟨?_, ?_, ?_⟩
  · intro clientIp e rest h1 h2 h3
    simp [blockedScan, h1, h2, h3]
  · intro clientIp e rest a h1 h2 h3 h4
    simp [blockedScan, h1, h2, h3, h4]
  · intro clientIp e rest h1 h2
    simp [blockedScan, h1, h2]

/-- C2 witness: an unparseable candidate aborts at the first CIDR entry. -/
theorem C2_malformed_aborts_witness :
    blockedScan "garbage" ["10.0.0.0/8", "1.2.3.4"] = .error "ipaddr: invalid address" :=
  C2_malformed_aborts.1 "garbage" "10.0.0.0/8" ["1.2.3.4"]
    (by decide) (by decide) (by decide)

/-- C2 counterexample: the claim says a malformed CIDR entry is skipped and
evaluation continues; with configuration `bad/8,1.2.3.4` and candidate
`1.2.3.4` the first entry throws, so the matching second entry is never
reached and the whole check errors instead of returning a match. -/
theorem C2_counterexample :
    hasBlockedIp (some "bad/8,1.2.3.4") "1.2.3.4" = .error "ipaddr: invalid CIDR" := by
  decide

/-- C3 (amended): when the trusted-header fast path produced nothing and the
IP is not local, `getLocation` queries the geo database with
`ip.split(':')[0]` — everything before the FIRST colon, which strips a
trailing `:port` from an IPv4 address but truncates a colon-bearing IPv6
address — and on a hit derives country from the primary iso code with
fallback to the registered-country code, region via `getRegionCode` on the
first subdivision code, and city from the English name; no match is
absent; and `getRegionCode` composes `US`+`CA` to `US-CA`, passes the
hyphenated `US-CA` through, and is absent without a country. -/
theorem C3_db_lookup_first_colon :
    (∀ (skipEnv : Option String) (isLocal : String → Bool)
      (db : String → Option GeoResult) (ip : String) (headers : HeaderSet)
      (hasPayloadIP : Bool),
      isLocal ip = false →
      (hasPayloadIP = true ∨ jsTruthyS skipEnv = true ∨
        (jsTruthyS (hget headers "cf-ipcountry") = false ∧
         jsTruthyS (hget headers "x-vercel-ip-country") = false)) →
      getLocation skipEnv isLocal db ip headers hasPayloadIP =
        (match db (String.mk ((splitChar ':' ip.data).headD [])) with
         | some result =>
           some { country := jsCoalesce (result.country.bind CountryRec.iso_code)
                    (result.registered_country.bind CountryRec.iso_code),
                  region := getRegionCode
                    (jsCoalesce (result.country.bind CountryRec.iso_code)
                      (result.registered_country.bind CountryRec.iso_code))
                    ((result.subdivisions.bind List.head?).bind SubdivisionRec.iso_code),
                  city := (result.city.bind CityRec.names).bind CityNames.en }
         | none => none)) ∧
    getRegionCode (some "US") (some "CA") = some "US-CA" ∧
    getRegionCode (some "US") (some "US-CA") = some "US-CA" ∧
    getRegionCode none (some "CA") = none := by
  refine ⟨?_, by decide, by decide, by decide⟩
  intro skipEnv isLocal db ip headers hasPayloadIP hl hcond
  rcases hcond with h | h | ⟨h1, h2⟩
  · subst h
    simp [getLocation, hl]
  · simp [getLocation, hl, h]
  · cases hasPayloadIP with
    | true => simp [getLocation, hl]
    | false => simp [getLocation, hl, h1, h2]

/-- C3 witness: an IPv4 candidate with a port is looked up without the
port and all fields are projected from the hit. -/
theorem C3_db_lookup_first_colon_witness :
    getLocation none (fun _ => false)
      (fun s => if s = "1.2.3.4"
        then some ⟨some ⟨some "US"⟩, none, some [⟨some "CA"⟩], some ⟨some ⟨some "SF"⟩⟩⟩
        else none)
      "1.2.3.4:8080" [] true
      = some { country := some "US", region := some "US-CA", city := some "SF" } := by
  have h := C3_db_lookup_first_colon.1 none (fun _ => false)
    (fun s => if s = "1.2.3.4"
      then some ⟨some ⟨some "US"⟩, none, some [⟨some "CA"⟩], some ⟨some ⟨some "SF"⟩⟩⟩
      else none)
    "1.2.3.4:8080" [] true rfl (Or.inl rfl)
  rw [h]
  decide

/-- C3 counterexample: the claim says only a trailing `:port` is removed and
an IPv6 address with no port is passed to the database unchanged; for
`2001:db8::1` the code queries `2001` instead, so a database holding that
exact IPv6 address yields no location. -/
theorem C3_counterexample :
    getLocation none (fun _ => false)
      (fun s => if s = "2001:db8::1" then some ⟨some ⟨some "CH"⟩, none, none, none⟩ else none)
      "2001:db8::1" [] true = none ∧
    (if "2001:db8::1" = "2001:db8::1"
      then some (⟨some ⟨some "CH"⟩, none, none, none⟩ : GeoResult) else none) ≠ none ∧
    String.mk ((splitChar ':' ("2001:db8::1").data).headD []) = "2001" := by decide

/-- C6 (amended): with a non-payload IP, the skip flag unset, a non-local
IP and a truthy `cf-ipcountry`, `getLocation` returns immediately — the
result is the same for every database, so the database is not consulted —
with country and city re-decoded (Latin-1 bytes reinterpreted as UTF-8)
from the Cloudflare headers, and region NOT the decoded `cf-region-code`
header itself but `getRegionCode` applied to the decoded country and
decoded region; and the fast path is never entered when the IP was
payload-supplied or the skip flag is set (the result is then independent of
the headers). -/
theorem C6_fast_path_composed_region :
    (∀ (skipEnv : Option String) (isLocal : String → Bool)
      (db : String → Option GeoResult) (ip : String) (headers : HeaderSet),
      isLocal ip = false →
      jsTruthyS skipEnv = false →
      jsTruthyS (hget headers "cf-ipcountry") = true →
      getLocation skipEnv isLocal db ip headers false =
        some { country := decodeHeaderOpt (hget headers "cf-ipcountry"),
               region := getRegionCode (decodeHeaderOpt (hget headers "cf-ipcountry"))
                 (decodeHeaderOpt (hget headers "cf-region-code")),
               city := decodeHeaderOpt (hget headers "cf-ipcity") }) ∧
    (∀ (skipEnv : Option String) (isLocal : String → Bool)
      (db : String → Option GeoResult) (ip : String) (h1 h2 : HeaderSet),
      getLocation skipEnv isLocal db ip h1 true = getLocation skipEnv isLocal db ip h2 true) ∧
    (∀ (skipEnv : Option String) (isLocal : String → Bool)
      (db : String → Option GeoResult) (ip : String) (h1 h2 : HeaderSet) (p : Bool),
      jsTruthyS skipEnv = true →
      getLocation skipEnv isLocal db ip h1 p = getLocation skipEnv isLocal db ip h2 p) := by
  refine ⟨?_, ?_, ?_⟩
  · intro skipEnv isLocal db ip headers hl hskip hcf
    simp [getLocation, hl, hskip, hcf]
  · intro skipEnv isLocal db ip h1 h2
    by_cases hl : isLocal ip <;> simp [getLocation, hl]
  · intro skipEnv isLocal db ip h1 h2 p hskip
    by_cases hl : isLocal ip <;> simp [getLocation, hl, hskip]

/-- C6 witness: the Cloudflare fast path fires with a database that would
have answered differently, proving the database is ignored. -/
theorem C6_fast_path_composed_region_witness :
    getLocation none (fun _ => false) (fun _ => some ⟨some ⟨some "ZZ"⟩, none, none, none⟩)
      "8.8.8.8" [("cf-ipcountry", "US"), ("cf-region-code", "CA")] false
      = some { country := some "US", region := some "US-CA", city := none } := by
  have h := C6_fast_path_composed_region.1 none (fun _ => false)
    (fun _ => some ⟨some ⟨some "ZZ"⟩, none, none, none⟩)
    "8.8.8.8" [("cf-ipcountry", "US"), ("cf-region-code", "CA")] rfl rfl (by decide)
  rw [h]
  decide

/-- C6 counterexample: the claim says the fast-path region is the
`cf-region-code` header value re-decoded; with country `US` and region
header `CA` the decoded header is `CA` but the returned region is the
composite `US-CA`. -/
theorem C6_counterexample :
    getLocation none (fun _ => false) (fun _ => none) "1.2.3.4"
      [("cf-ipcountry", "US"), ("cf-region-code", "CA"), ("cf-ipcity", "Los Angeles")] false
      = some { country := some "US", region := some "US-CA", city := some "Los Angeles" } ∧
    decodeHeaderOpt (some "CA") = some "CA" ∧
    (some "US-CA" : Option String) ≠ some "CA" := by decide

/-- Helper for C8: once the global handle is set and no caller is mid-open,
no schedule changes the shared state (in particular `maxmind.open` is never
called again), and no caller ever re-enters the opening step. -/
theorem runSchedule_stable (sched : List Nat) :
    ∀ (st : GeoState) (pcs : List CallerPc) (h : Nat),
      st.handle = some h → (∀ pc ∈ pcs, pc ≠ CallerPc.opening) →
      (runSchedule sched st pcs).1 = st ∧
      (∀ pc ∈ (runSchedule sched st pcs).2, pc ≠ CallerPc.opening) := by
  induction sched with
  | nil =>
    intro st pcs h hh hpcs
    exact ⟨rfl, hpcs⟩
  | cons i rest ih =>
    intro st pcs h hh hpcs
    simp only [runSchedule]
    cases hi : pcs.get? i with
    | none => exact ih st pcs h hh hpcs
    | some pc =>
      have hmem : pc ∈ pcs := List.get?_mem hi
      have hpc : pc ≠ CallerPc.opening := hpcs pc hmem
      have hset : ∀ q : CallerPc, q ≠ CallerPc.opening →
          ∀ pc2 ∈ pcs.set i q, pc2 ≠ CallerPc.opening := by
        intro q hq pc2 hm2
        rcases List.mem_or_eq_of_mem_set hm2 with hin | rfl
        · exact hpcs pc2 hin
        · exact hq
      cases pc with
      | opening => exact absurd rfl hpc
      | start =>
        have hstep : stepCaller st CallerPc.start = (st, CallerPc.done h) := by
          simp [stepCaller, hh]
        dsimp only
        rw [hstep]
        exact ih st (pcs.set i (CallerPc.done h)) h hh (hset _ (by simp))
      | done h2 =>
        have hstep : stepCaller st (CallerPc.done h2) = (st, CallerPc.done h2) := by
          simp [stepCaller]
        dsimp only
        rw [hstep]
        exact ih st (pcs.set i (CallerPc.done h2)) h hh (hset _ (by simp))

/-- C8 (amended): the open-or-reuse decision is an UNSYNCHRONIZED
check-then-act (`if (!global[MAXMIND]) { global[MAXMIND] = await ... }`):
under concurrent first-time calls the database can be opened more than once
and callers can end up holding different handles; once the handle is set
and no caller is mid-open, no further opens ever occur and the state is
stable, and a caller that completed the check holds a non-null handle; a
strictly sequential first call opens exactly once and a later caller
adopts the same handle. -/
theorem C8_unsynchronized_open :
    (∀ (sched : List Nat) (st : GeoState) (pcs : List CallerPc) (h : Nat),
      st.handle = some h → (∀ pc ∈ pcs, pc ≠ CallerPc.opening) →
      (runSchedule sched st pcs).1 = st) ∧
    (runSchedule [0, 0, 1] ⟨none, 0⟩ [.start, .start]).1.openCount = 1 ∧
    (runSchedule [0, 0, 1] ⟨none, 0⟩ [.start, .start]).2
      = [CallerPc.done 0, CallerPc.done 0] := by
  refine ⟨?_, by decide, by decide⟩
  intro sched st pcs h hh hpcs
  exact (runSchedule_stable sched st pcs h hh hpcs).1

/-- C8 witness: with the handle already set, a further step changes
nothing. -/
theorem C8_unsynchronized_open_witness :
    (runSchedule [0] ⟨some 5, 1⟩ [CallerPc.start]).1 = ⟨some 5, 1⟩ :=
  C8_unsynchronized_open.1 [0] ⟨some 5, 1⟩ [CallerPc.start] 5 rfl (by decide)

/-- C8 counterexample: the claim says the handle is opened at most once and
every caller observes the same handle; interleaving two first-time callers
as check, check, open, open performs two opens and leaves the callers
holding different handles. -/
theorem C8_counterexample :
    (runSchedule [0, 1, 0, 1] ⟨none, 0⟩ [.start, .start]).1.openCount = 2 ∧
    (runSchedule [0, 1, 0, 1] ⟨none, 0⟩ [.start, .start]).2
      = [CallerPc.done 0, CallerPc.done 1] ∧
    CallerPc.done 0 ≠ CallerPc.done 1 := by decide

end UmamiDetect
